import Mathlib

/-!
Shallow embedding of the matching and extraction core of the Resume
Screening and Job Matching system (`job_matcher.py`, `resume_parser.py`).

Scores are modelled over `ℚ` (Python floats carrying decimal literals and
percentages); Python strings are modelled as Lean `String`s with ASCII
case folding.  The TF-IDF fit / transform / cosine-similarity computation
is performed by an external numeric library (scikit-learn) and is modelled
as an oracle parameter that produces one similarity value per job; all the
surrounding logic is translated line by line from the source.
-/

namespace ResumeMatch

/-- ASCII lower-casing of a string, modelling Python `str.lower()`. -/
def lowerStr (s : String) : String := ⟨s.data.map Char.toLower⟩

/-- `leadsWith needle hay` is true when `needle` is an initial segment of
`hay` (helper for the substring test). -/
def leadsWith : List Char → List Char → Bool
  | [], _ => true
  | _ :: _, [] => false
  | a :: as, b :: bs => a = b && leadsWith as bs

/-- `occursIn needle hay` is true when `needle` occurs contiguously inside
`hay`. -/
def occursIn (needle : List Char) : List Char → Bool
  | [] => leadsWith needle []
  | c :: rest => leadsWith needle (c :: rest) || occursIn needle rest

/-- Python's substring test `a in b`. -/
def isSub (a b : String) : Bool := occursIn a.data b.data

/-- The bidirectional, case-insensitive substring test used by the skill
routines of `job_matcher.py`: some resume skill `rs` satisfies
`rs in skill or skill in rs` (both sides already lower-cased). -/
def skillHit (resume_skills_lower : List String) (skill : String) : Bool :=
  resume_skills_lower.any fun rs => isSub rs skill || isSub skill rs

/-- `JobMatcher.calculate_skill_match` (job_matcher.py lines 115-125):
percentage of job skills for which some resume skill is a substring of the
job skill or vice versa, case-insensitively; `0.0` for an empty job skill
list. -/
def calculate_skill_match (resume_skills job_skills : List String) : ℚ :=
  if job_skills.isEmpty then 0
  else
    let resume_skills_lower := resume_skills.map lowerStr
    let job_skills_lower := job_skills.map lowerStr
    let matched_skills := job_skills_lower.countP (skillHit resume_skills_lower)
    ((matched_skills : ℚ) / (job_skills.length : ℚ)) * 100

/-- `JobMatcher.calculate_experience_match` (job_matcher.py lines 127-136). -/
def calculate_experience_match (resume_years job_min_years : ℚ) : ℚ :=
  if job_min_years = 0 then 100
  else if resume_years ≥ job_min_years then 100
  else max 0 (resume_years / job_min_years * 100)

/-- `JobMatcher.get_matching_skills` (job_matcher.py lines 138-150): the
lower-cased job skills matched by some resume skill (the inner loop with
`break` collects each job skill at most once, i.e. it is a filter). -/
def get_matching_skills (resume_skills job_skills : List String) : List String :=
  let resume_skills_lower := resume_skills.map lowerStr
  let job_skills_lower := job_skills.map lowerStr
  job_skills_lower.filter fun job_skill =>
    resume_skills_lower.any fun rs => isSub job_skill rs || isSub rs job_skill

/-- `JobMatcher.get_missing_skills` (job_matcher.py lines 152-162): the
lower-cased job skills matched by no resume skill. -/
def get_missing_skills (resume_skills job_skills : List String) : List String :=
  let resume_skills_lower := resume_skills.map lowerStr
  let job_skills_lower := job_skills.map lowerStr
  job_skills_lower.filter fun job_skill =>
    !(resume_skills_lower.any fun rs => isSub job_skill rs || isSub rs job_skill)

/-! ### `resume_parser.py`: text cleaning -/

/-- Python's `\s` character class (ASCII): space, tab, newline, carriage
return, vertical tab, form feed. -/
def pySpace (c : Char) : Bool :=
  c = ' ' || c = '\t' || c = '\n' || c = '\r' || c = Char.ofNat 11 || c = Char.ofNat 12

/-- Python's `\w` character class (ASCII): letters, digits, underscore. -/
def isWordChar (c : Char) : Bool := c.isAlphanum || c = '_'

/-- The character class kept by `clean_text`'s second substitution
`[^\w\s\.\,\!\?\-]`: word characters, whitespace, and `. , ! ? -`. -/
def isSafeChar (c : Char) : Bool :=
  isWordChar c || pySpace c || c = '.' || c = ',' || c = '!' || c = '?' || c = '-'

/-- `re.sub(r'\s+', ' ', text)`: every maximal run of whitespace becomes a
single space.  The boolean argument records whether the previous character
belonged to a whitespace run. -/
def collapseWsAux : Bool → List Char → List Char
  | _, [] => []
  | prevSpace, c :: rest =>
    if pySpace c then
      if prevSpace then collapseWsAux true rest
      else ' ' :: collapseWsAux true rest
    else c :: collapseWsAux false rest

/-- `re.sub(r'[^\w\s\.\,\!\?\-]', ' ', text)`: replace each character
outside the safe set by a space. -/
def replaceUnsafe (cs : List Char) : List Char :=
  cs.map fun c => if isSafeChar c then c else ' '

/-- Python `str.strip()` (ASCII whitespace). -/
def stripEnds (cs : List Char) : List Char :=
  ((cs.dropWhile pySpace).reverse.dropWhile pySpace).reverse

/-- `ResumeParser.clean_text` (resume_parser.py lines 174-180): collapse
whitespace runs, then replace characters outside the safe set by spaces,
then strip. -/
def clean_text (text : String) : String :=
  ⟨stripEnds (replaceUnsafe (collapseWsAux false text.data))⟩

/-- Property named by the specification: no two consecutive whitespace
characters. -/
def noConsecutiveWs (cs : List Char) : Bool :=
  (cs.zip cs.tail).all fun p => !(pySpace p.1 && pySpace p.2)

/-! ### `resume_parser.py`: experience extraction

`ResumeParser.extract_experience` (lines 128-157) runs `re.findall` with
`re.IGNORECASE` for the two patterns
`(\d+)\+?\s*years?\s*(?:of\s*)?experience` and
`experience[:\-]?\s*(\d+)\+?\s*years?` and keeps, for each pattern that
matches at all, the maximum captured number.  The two patterns are
embedded as explicit matchers over lower-cased character lists; the greedy
quantifiers of the patterns coincide with maximal-munch scanning here
because each quantified class is disjoint from the character that must
follow it, and the optional `(?:of\s*)?` keeps regex backtracking
explicitly. -/

/-- Maximal leading digit run, with the rest of the input; `none` when the
input does not start with a digit (regex `\d+`). -/
def takeDigits (cs : List Char) : Option (List Char × List Char) :=
  let ds := cs.takeWhile Char.isDigit
  if ds.isEmpty then none else some (ds, cs.dropWhile Char.isDigit)

/-- Regex `\s*`. -/
def skipSpaces (cs : List Char) : List Char := cs.dropWhile pySpace

/-- Match a literal string, returning the rest of the input. -/
def dropLit : List Char → List Char → Option (List Char)
  | [], cs => some cs
  | _ :: _, [] => none
  | l :: ls, c :: cs => if c = l then dropLit ls cs else none

/-- An optional single character from a class (regex `X?`). -/
def dropOptChar (p : Char → Bool) : List Char → List Char
  | [] => []
  | c :: rest => if p c then rest else c :: rest

/-- One attempted match of `(\d+)\+?\s*years?\s*(?:of\s*)?experience` at
the head of the input; returns the captured digits and the rest of the
input after the match. -/
def matchPat1At (cs : List Char) : Option (List Char × List Char) :=
  match takeDigits cs with
  | none => none
  | some (d, cs1) =>
    let cs3 := skipSpaces (dropOptChar (· = '+') cs1)
    match dropLit "year".data cs3 with
    | none => none
    | some cs4 =>
      let cs6 := skipSpaces (dropOptChar (· = 's') cs4)
      match dropLit "of".data cs6 with
      | some cs7 =>
        match dropLit "experience".data (skipSpaces cs7) with
        | some cs9 => some (d, cs9)
        | none =>
          match dropLit "experience".data cs6 with
          | some cs9 => some (d, cs9)
          | none => none
      | none =>
        match dropLit "experience".data cs6 with
        | some cs9 => some (d, cs9)
        | none => none

/-- One attempted match of `experience[:\-]?\s*(\d+)\+?\s*years?` at the
head of the input. -/
def matchPat2At (cs : List Char) : Option (List Char × List Char) :=
  match dropLit "experience".data cs with
  | none => none
  | some cs1 =>
    let cs3 := skipSpaces (dropOptChar (fun c => c = ':' || c = '-') cs1)
    match takeDigits cs3 with
    | none => none
    | some (d, cs4) =>
      let cs6 := skipSpaces (dropOptChar (· = '+') cs4)
      match dropLit "year".data cs6 with
      | none => none
      | some cs7 => some (d, dropOptChar (· = 's') cs7)

/-- `re.findall` scanning: try a match at every position, left to right,
non-overlapping; continue after the end of each match.  The fuel is the
input length (each step consumes at least one character). -/
def findallAux (matchAt : List Char → Option (List Char × List Char)) :
    Nat → List Char → List (List Char)
  | 0, _ => []
  | _, [] => []
  | fuel + 1, c :: rest =>
    match matchAt (c :: rest) with
    | some (d, rem) =>
      d :: findallAux matchAt fuel (if rem.length < rest.length + 1 then rem else rest)
    | none => findallAux matchAt fuel rest

/-- All captures of a pattern over the input, in order. -/
def findall (matchAt : List Char → Option (List Char × List Char))
    (cs : List Char) : List (List Char) :=
  findallAux matchAt cs.length cs

/-- Python `int` on a run of digits. -/
def digitsToNat (ds : List Char) : Nat :=
  ds.foldl (fun n c => n * 10 + (c.toNat - '0'.toNat)) 0

/-- Python `max` on a list of naturals (the source only applies it to
non-empty lists). -/
def maxNat (l : List Nat) : Nat := l.foldl Nat.max 0

/-- The `years` field computed by `ResumeParser.extract_experience`
(resume_parser.py lines 128-148): starting from 0, each pattern in order
overwrites the value with the maximum of its own captures whenever it has
any match. -/
def extract_experience_years (text : String) : Nat :=
  let cs := text.data.map Char.toLower
  [matchPat1At, matchPat2At].foldl
    (fun years pat =>
      let ms := findall pat cs
      if ms.isEmpty then years else maxNat (ms.map digitsToNat))
    0

/-- The behaviour described by the specification: the maximum over the
captures of both patterns anywhere in the text, 0 when neither pattern
matches. -/
def claimedExperienceYears (text : String) : Nat :=
  let cs := text.data.map Char.toLower
  let ms := findall matchPat1At cs ++ findall matchPat2At cs
  if ms.isEmpty then 0 else maxNat (ms.map digitsToNat)


/-! ### `job_matcher.py`: data model and the ranking pipeline -/

/-- A job posting as consumed by the matcher (`jobs` entries in
`JobMatcher.find_matches`). -/
structure Job where
  id : Nat
  title : String
  company : String
  description : String
  required_skills : List String
  min_experience : ℚ
  deriving DecidableEq, Inhabited

/-- The parts of a parsed resume read by the matcher
(`resume_data.get('cleaned_text')`, `.get('skills')`,
`.get('experience', {}).get('years', 0)`). -/
structure ResumeData where
  cleaned_text : String
  skills : List String
  experience_years : ℚ
  deriving DecidableEq, Inhabited

/-- The match dictionary built in `JobMatcher.find_matches`
(job_matcher.py lines 99-109). -/
structure MatchResult where
  job_id : Nat
  job_title : String
  company : String
  similarity_score : ℚ
  skill_match : ℚ
  experience_match : ℚ
  overall_score : ℚ
  job_description : String
  required_skills : List String
  deriving DecidableEq, Inhabited

/-- Round-half-to-even on rationals, the semantics of Python's `round`. -/
def roundHalfToEven (q : ℚ) : ℤ :=
  let f := ⌊q⌋
  let r := q - (f : ℚ)
  if r < 1 / 2 then f
  else if 1 / 2 < r then f + 1
  else if f % 2 = 0 then f else f + 1

/-- Python `round(q, 2)`. -/
def pyRound2 (q : ℚ) : ℚ := (roundHalfToEven (q * 100) : ℚ) / 100

/-- One match dictionary (`matches.append({...})`, job_matcher.py lines
86-109): `match_score` is the similarity scaled to a percentage, the
overall score is `match_score * 0.6 + skill_match * 30 +
experience_match * 10`, rounded to two decimals. -/
def mkMatch (resume : ResumeData) (job : Job) (simval : ℚ) : MatchResult :=
  let match_score := simval * 100
  let skill := calculate_skill_match resume.skills job.required_skills
  let exp := calculate_experience_match resume.experience_years job.min_experience
  { job_id := job.id
    job_title := job.title
    company := job.company
    similarity_score := pyRound2 match_score
    skill_match := skill
    experience_match := exp
    overall_score := pyRound2 (match_score * (6 / 10) + skill * 30 + exp * 10)
    job_description := job.description
    required_skills := job.required_skills }

/-- `np.argsort(similarities)[::-1][:top_n]` (job_matcher.py line 80): the
indices of the similarity vector in descending order of similarity,
truncated to `top_n`.  The source's tie order among equal similarities is
unspecified (numpy quicksort); it is modelled as the stable descending
order. -/
def argsortTop (sims : List ℚ) (top_n : Nat) : List Nat :=
  (List.insertionSort (fun i j => sims.getD j 0 ≤ sims.getD i 0)
    (List.range sims.length)).take top_n

/-- Descending comparison on overall scores, the key of
`matches.sort(key=lambda x: x['overall_score'], reverse=True)`. -/
def overallGe (a b : MatchResult) : Prop := b.overall_score ≤ a.overall_score

instance : DecidableRel overallGe := fun a b =>
  inferInstanceAs (Decidable (b.overall_score ≤ a.overall_score))

/-- The pure ranking core of `JobMatcher.find_matches` (job_matcher.py
lines 79-113) given the cosine similarities returned by the numeric
library: keep the `top_n` indices by similarity, drop those with
similarity 0, build the match dictionaries, and sort them by overall
score descending (Python's sort is stable). -/
def rankMatches (resume : ResumeData) (jobs : List Job) (sims : List ℚ)
    (top_n : Nat) : List MatchResult :=
  let ms := (argsortTop sims top_n).filterMap fun idx =>
    if 0 < sims.getD idx 0 then
      some (mkMatch resume (jobs.getD idx default) (sims.getD idx 0))
    else none
  List.insertionSort overallGe ms

/-- The ranking described in the specification: discard the jobs with
similarity 0, sort all remaining jobs by overall score descending, and
return the first `top_n`. -/
def claimedRank (resume : ResumeData) (jobs : List Job) (sims : List ℚ)
    (top_n : Nat) : List MatchResult :=
  let ms := (List.range jobs.length).filterMap fun idx =>
    if 0 < sims.getD idx 0 then
      some (mkMatch resume (jobs.getD idx default) (sims.getD idx 0))
    else none
  (List.insertionSort overallGe ms).take top_n

/-- The vectorizer state carried by a `JobMatcher` instance: the `fitted`
flag, the corpus texts the model was fitted on (`fit_transform`'s input),
and the stored job ids. -/
structure MatcherState where
  fitted : Bool
  corpus_texts : List String
  job_ids : List Nat
  deriving DecidableEq, Inhabited

/-- The text built per job in `JobMatcher.fit_vectorizer` (job_matcher.py
line 32): title, description, and space-joined required skills. -/
def jobText (job : Job) : String :=
  job.title ++ " " ++ job.description ++ " " ++ String.intercalate " " job.required_skills

/-- `JobMatcher.fit_vectorizer` (job_matcher.py lines 23-40): an empty
corpus returns without fitting; otherwise the state is fitted on the
combined texts, with ids defaulting to `range` when the given list is
empty. -/
def fit_vectorizer (st : MatcherState) (jobs : List Job) (ids : List Nat) :
    MatcherState :=
  if jobs.isEmpty then st
  else
    { fitted := true
      corpus_texts := jobs.map jobText
      job_ids := if ids.isEmpty then List.range jobs.length else ids }

/-- The resume text built in `JobMatcher.create_resume_vector`
(job_matcher.py line 48). -/
def resumeText (resume : ResumeData) : String :=
  resume.cleaned_text ++ " " ++ String.intercalate " " resume.skills

/-- `JobMatcher.create_resume_vector` (job_matcher.py lines 42-52): raises
`ValueError("Vectorizer must be fitted first")` when the vectorizer has
not been fitted; otherwise transforms the combined resume text.  The
numeric transform belongs to the external library, so the projected
vector is represented by the text handed to it. -/
def create_resume_vector (st : MatcherState) (resume : ResumeData) :
    Except String String :=
  if !st.fitted then Except.error "Vectorizer must be fitted first"
  else Except.ok (resumeText resume)

/-- `JobMatcher.find_matches` (job_matcher.py lines 59-113) with the jobs
supplied by the caller (the `jobs is None` branch loads them from the
external store).  `sim` is the oracle for the scikit-learn
transform-and-cosine-similarity step, mapping the projected resume text
and the fitted corpus texts to one similarity per job.  Returns the
matches together with the matcher state after the call. -/
def find_matches (sim : String → List String → List ℚ) (st : MatcherState)
    (resume : ResumeData) (jobs : List Job) (top_n : Nat) :
    Except String (List MatchResult × MatcherState) :=
  if jobs.isEmpty then Except.ok ([], st)
  else
    let st1 := fit_vectorizer st jobs (jobs.map (·.id))
    match create_resume_vector st1 resume with
    | Except.error e => Except.error e
    | Except.ok rtext =>
      let sims := sim rtext st1.corpus_texts
      Except.ok (rankMatches resume jobs sims top_n, st1)

/-! ### Helper lemmas -/

theorem leadsWith_refl (l : List Char) : leadsWith l l = true := by
  induction l with
  | nil => rfl
  | cons c cs ih => simp [leadsWith, ih]

theorem isSub_refl (s : String) : isSub s s = true := by
  unfold isSub
  cases h : s.data with
  | nil => rfl
  | cons c cs => simp [occursIn, leadsWith_refl]

/-- Evaluation form of `calculate_skill_match` for a non-empty job list. -/
theorem skill_match_eval (S J : List String) (n : Nat)
    (hn : (J.map lowerStr).countP (skillHit (S.map lowerStr)) = n)
    (hJ : J.isEmpty = false) :
    calculate_skill_match S J = (n : ℚ) / (J.length : ℚ) * 100 := by
  unfold calculate_skill_match
  rw [hJ]
  simp only [Bool.false_eq_true, if_false, hn]

theorem roundHalfToEven_intCast (n : ℤ) : roundHalfToEven (n : ℚ) = n := by
  unfold roundHalfToEven
  rw [Int.floor_intCast]
  norm_num

theorem pyRound2_intCast (n : ℤ) : pyRound2 (n : ℚ) = (n : ℚ) := by
  unfold pyRound2
  rw [show ((n : ℚ) * 100) = ((n * 100 : ℤ) : ℚ) by push_cast; ring,
    roundHalfToEven_intCast]
  push_cast
  ring

/-! ### Claim theorems -/

/-- The experience-match score as described by the specification: 100 when
the job requires 0 years; 100 when candidate years ≥ required years > 0;
otherwise the ratio as a percentage, floored at 0. -/
def claimedExperienceMatch (years min_years : ℚ) : ℚ :=
  if min_years = 0 then 100
  else if min_years ≤ years ∧ 0 < min_years then 100
  else max 0 (years / min_years * 100)

/-- Claim C5: for a non-negative job requirement (the data model's domain:
`min_experience` counts years), the experience match score is 100 when the
job requires 0 years, 100 when candidate years ≥ required years > 0, and
otherwise the ratio as a percentage floored at 0; in particular
(years=2, min_years=4) scores exactly 50. -/
theorem experience_match_spec (y m : ℚ) (hm : 0 ≤ m) :
    calculate_experience_match y m = claimedExperienceMatch y m ∧
    calculate_experience_match 2 4 = 50 := by
  constructor
  · rcases lt_or_eq_of_le hm with hmpos | hmeq
    · have hmne : ¬(m = 0) := ne_of_gt hmpos
      by_cases hy : m ≤ y <;>
        simp [calculate_experience_match, claimedExperienceMatch, hmne,
          ge_iff_le, hy, hmpos]
    · simp [calculate_experience_match, claimedExperienceMatch, ← hmeq]
  · norm_num [calculate_experience_match]

/-- Witness for C5 at (years=2, min_years=4). -/
theorem experience_match_spec_witness :
    calculate_experience_match 2 4 = claimedExperienceMatch 2 4 ∧
    calculate_experience_match 2 4 = 50 :=
  experience_match_spec 2 4 (by norm_num)

/-- Claim C6: the skill match score lies in [0, 100], is 0 for an empty
required-skill list, and for a non-empty list equals the percentage of job
skills hit by the bidirectional case-insensitive substring test against
the candidate skills. -/
theorem skill_match_bounds_formula (S J : List String) :
    0 ≤ calculate_skill_match S J ∧ calculate_skill_match S J ≤ 100 ∧
    calculate_skill_match S [] = 0 ∧
    (J ≠ [] → calculate_skill_match S J =
      ((J.countP fun j => skillHit (S.map lowerStr) (lowerStr j) : ℕ) : ℚ) /
        (J.length : ℚ) * 100) := by
  have hempty : calculate_skill_match S [] = 0 := by
    simp [calculate_skill_match]
  have key : J ≠ [] → calculate_skill_match S J =
      ((J.countP fun j => skillHit (S.map lowerStr) (lowerStr j) : ℕ) : ℚ) /
        (J.length : ℚ) * 100 := by
    intro hJ
    rw [skill_match_eval S J ((J.map lowerStr).countP (skillHit (S.map lowerStr))) rfl
      (by simpa [List.isEmpty_iff] using hJ)]
    rw [List.countP_map]
    rfl
  refine ⟨?_, ?_, hempty, key⟩
  · by_cases hJ : J = []
    · rw [hJ, hempty]
    · rw [key hJ]
      positivity
  · by_cases hJ : J = []
    · rw [hJ, hempty]; norm_num
    · rw [key hJ]
      have hc : ((J.countP fun j => skillHit (S.map lowerStr) (lowerStr j) : ℕ) : ℚ) ≤
          (J.length : ℚ) := by
        exact_mod_cast List.countP_le_length _
      have hlen : (0 : ℚ) < (J.length : ℚ) := by
        exact_mod_cast List.length_pos.mpr hJ
      have hdiv := (div_le_one hlen).mpr hc
      linarith

/-- Witness for C6 at S = ["python"], J = ["Python", "SQL"]. -/
theorem skill_match_bounds_formula_witness :
    calculate_skill_match ["python"] ["Python", "SQL"] =
      (((["Python", "SQL"].countP fun j =>
        skillHit (["python"].map lowerStr) (lowerStr j) : ℕ)) : ℚ) /
        ((["Python", "SQL"].length : ℕ) : ℚ) * 100 :=
  (skill_match_bounds_formula ["python"] ["Python", "SQL"]).2.2.2 (by decide)

/-- Claim C7: matching a non-empty skill list against itself yields
exactly 100. -/
theorem skill_match_self (S : List String) (h : S ≠ []) :
    calculate_skill_match S S = 100 := by
  have hcount : (S.map lowerStr).countP (skillHit (S.map lowerStr)) =
      (S.map lowerStr).length := by
    rw [List.countP_eq_length]
    intro a ha
    unfold skillHit
    rw [List.any_eq_true]
    exact ⟨a, ha, by simp [isSub_refl a]⟩
  rw [skill_match_eval S S (S.map lowerStr).length hcount
    (by simpa [List.isEmpty_iff] using h)]
  rw [List.length_map]
  have hlen : (0 : ℚ) < (S.length : ℚ) := by
    exact_mod_cast List.length_pos.mpr h
  field_simp

/-- Witness for C7 at S = ["python"]. -/
theorem skill_match_self_witness : calculate_skill_match ["python"] ["python"] = 100 :=
  skill_match_self ["python"] (by decide)

/-- Claim C10: the matching and missing skill lists partition the
lower-cased job skill list — together they are a permutation of it, and
each lower-cased job skill belongs to exactly one of the two. -/
theorem matching_missing_partition (rs js : List String) (x : String)
    (hx : x ∈ js.map lowerStr) :
    (get_matching_skills rs js ++ get_missing_skills rs js).Perm (js.map lowerStr) ∧
    (x ∈ get_matching_skills rs js ↔ x ∉ get_missing_skills rs js) := by
  constructor
  · simp only [get_matching_skills, get_missing_skills]
    exact List.filter_append_perm _ _
  · simp only [get_matching_skills, get_missing_skills]
    simp [List.mem_filter, hx]
    constructor
    · rintro ⟨y, hy, h⟩
      refine ⟨y, hy, fun hfalse => ?_⟩
      rcases h with h | h
      · rw [hfalse] at h; exact absurd h (by simp)
      · exact h
    · rintro ⟨y, hy, h⟩
      by_cases hb : isSub x (lowerStr y) = true
      · exact ⟨y, hy, Or.inl hb⟩
      · exact ⟨y, hy, Or.inr (h (by simpa using hb))⟩

/-- Witness for C10 at rs = ["python"], js = ["Python", "SQL"],
x = "python". -/
theorem matching_missing_partition_witness :
    (get_matching_skills ["python"] ["Python", "SQL"] ++
      get_missing_skills ["python"] ["Python", "SQL"]).Perm
      (["Python", "SQL"].map lowerStr) ∧
    ("python" ∈ get_matching_skills ["python"] ["Python", "SQL"] ↔
      "python" ∉ get_missing_skills ["python"] ["Python", "SQL"]) :=
  matching_missing_partition ["python"] ["Python", "SQL"] "python" (by decide)

/-- Counterexample for claim C3: the per-pattern loop in
`extract_experience` overwrites the years with the maximum of the captures
of the last pattern that matched, so "10 years experience. experience: 3
years" yields 3 where the claimed maximum over all matches of both
patterns is 10. -/
theorem experience_years_overwrite_cex :
    extract_experience_years "10 years experience. experience: 3 years" = 3 ∧
    claimedExperienceYears "10 years experience. experience: 3 years" = 10 ∧
    (3 : Nat) ≠ 10 := by
  refine ⟨by decide, by decide, by decide⟩

/-- Claim C3 amended: the extracted experience years equal the maximum
capture of the second pattern ("experience: N years") whenever it matches
anywhere; otherwise the maximum capture of the first pattern
("N years experience") whenever it matches; otherwise 0 — each pattern in
order overwrites the result, rather than a maximum over both.  When at
most one of the two patterns matches, this coincides with the claimed
maximum over all matches. -/
theorem experience_years_last_pattern (text : String) :
    extract_experience_years text =
      (if (findall matchPat2At (text.data.map Char.toLower)).isEmpty then
        (if (findall matchPat1At (text.data.map Char.toLower)).isEmpty then 0
         else maxNat ((findall matchPat1At (text.data.map Char.toLower)).map digitsToNat))
       else maxNat ((findall matchPat2At (text.data.map Char.toLower)).map digitsToNat)) ∧
    (((findall matchPat2At (text.data.map Char.toLower)).isEmpty ∨
      (findall matchPat1At (text.data.map Char.toLower)).isEmpty) →
      extract_experience_years text = claimedExperienceYears text) := by
  have hfold : extract_experience_years text =
      (if (findall matchPat2At (text.data.map Char.toLower)).isEmpty then
        (if (findall matchPat1At (text.data.map Char.toLower)).isEmpty then 0
         else maxNat ((findall matchPat1At (text.data.map Char.toLower)).map digitsToNat))
       else maxNat ((findall matchPat2At (text.data.map Char.toLower)).map digitsToNat)) := by
    unfold extract_experience_years
    simp only [List.foldl]
  refine ⟨hfold, fun hdisj => ?_⟩
  unfold claimedExperienceYears
  rw [hfold]
  rcases hdisj with h2 | h1
  · have hm2 : findall matchPat2At (text.data.map Char.toLower) = [] :=
      List.isEmpty_iff.mp h2
    simp [hm2]
  · have hm1 : findall matchPat1At (text.data.map Char.toLower) = [] :=
      List.isEmpty_iff.mp h1
    simp [hm1]

/-- Witness for the amended C3 at a text matched only by the first
pattern. -/
theorem experience_years_last_pattern_witness :
    extract_experience_years "5 years of experience" =
      claimedExperienceYears "5 years of experience" :=
  (experience_years_last_pattern "5 years of experience").2 (Or.inl (by decide))

/-- Counterexample for claim C4: `clean_text` collapses whitespace before
replacing unsafe characters by spaces, so "a@@b" becomes "a  b", which
contains two consecutive whitespace characters. -/
theorem clean_text_double_space_cex :
    clean_text "a@@b" = "a  b" ∧
    noConsecutiveWs (clean_text "a@@b").data = false := by
  refine ⟨by decide, by decide⟩

/-- Claim C4 amended: every character of the cleaned text lies in the safe
set (word characters, whitespace, and `. , ! ? -`); whitespace runs of the
input are collapsed before unsafe characters are replaced by spaces, so
the output may contain consecutive spaces where unsafe characters stood. -/
theorem clean_text_safe_chars (text : String) (c : Char)
    (hc : c ∈ (clean_text text).data) : isSafeChar c = true := by
  unfold clean_text at hc
  have h2 : c ∈ replaceUnsafe (collapseWsAux false text.data) := by
    unfold stripEnds at hc
    rw [List.mem_reverse] at hc
    have h3 := (List.dropWhile_sublist (l := ((collapseWsAux false text.data
      |> replaceUnsafe).dropWhile pySpace).reverse) pySpace).subset hc
    rw [List.mem_reverse] at h3
    exact (List.dropWhile_sublist pySpace).subset h3
  obtain ⟨a, -, ha⟩ := List.mem_map.mp h2
  by_cases hs : isSafeChar a = true
  · rw [if_pos hs] at ha
    rw [← ha]
    exact hs
  · rw [if_neg hs] at ha
    rw [← ha]
    decide

/-- Witness for the amended C4 at text = "a b", c = 'a'. -/
theorem clean_text_safe_chars_witness : isSafeChar 'a' = true :=
  clean_text_safe_chars "a b" 'a' (by decide)

/-- Claim C8: ranking against an empty job list returns the empty list
immediately, with no error and with the matcher state (hence the
vectorizer) untouched — no fit is attempted. -/
theorem find_matches_empty_jobs (sim : String → List String → List ℚ)
    (st : MatcherState) (resume : ResumeData) (top_n : Nat) :
    find_matches sim st resume [] top_n = Except.ok ([], st) := rfl

/-- Claim C9: projecting a resume into the vector space fails — with the
source's `ValueError("Vectorizer must be fitted first")`, the condition
the specification names `NotFittedError` — exactly when the vectorizer has
not been fitted, and after fitting on a non-empty corpus the projection
succeeds. -/
theorem resume_vector_requires_fit (st : MatcherState) (resume : ResumeData)
    (jobs : List Job) (ids : List Nat) (h : jobs ≠ []) :
    (st.fitted = false →
      create_resume_vector st resume = Except.error "Vectorizer must be fitted first") ∧
    ((∃ v, create_resume_vector st resume = Except.ok v) ↔ st.fitted = true) ∧
    (∃ v, create_resume_vector (fit_vectorizer st jobs ids) resume = Except.ok v) := by
  refine ⟨?_, ?_, ?_⟩
  · intro hf
    simp [create_resume_vector, hf]
  · cases hf : st.fitted <;> simp [create_resume_vector, hf]
  · refine ⟨resumeText resume, ?_⟩
    have hne : jobs.isEmpty = false := by simpa [List.isEmpty_iff] using h
    simp [create_resume_vector, fit_vectorizer, hne]

/-- Witness for C9 at an unfitted state and a one-job corpus. -/
theorem resume_vector_requires_fit_witness :
    ((MatcherState.mk false [] []).fitted = false →
      create_resume_vector (MatcherState.mk false [] []) (ResumeData.mk "" [] 0) =
        Except.error "Vectorizer must be fitted first") ∧
    ((∃ v, create_resume_vector (MatcherState.mk false [] []) (ResumeData.mk "" [] 0) =
      Except.ok v) ↔ (MatcherState.mk false [] []).fitted = true) ∧
    (∃ v, create_resume_vector
      (fit_vectorizer (MatcherState.mk false [] []) [(default : Job)] [])
      (ResumeData.mk "" [] 0) = Except.ok v) :=
  resume_vector_requires_fit (MatcherState.mk false [] []) (ResumeData.mk "" [] 0)
    [(default : Job)] [] (by decide)

/-! ### Concrete inputs for the ranking claims -/

/-- A parsed resume: python skills, no stated experience. -/
def sampleResume : ResumeData := ⟨"python developer", ["python"], 0⟩

/-- A job requiring python and no minimum experience. -/
def pyJob : Job := ⟨7, "Dev", "X", "Python developer role", ["python"], 0⟩

theorem skill_sample_self : calculate_skill_match ["python"] ["python"] = 100 := by
  rw [skill_match_eval ["python"] ["python"] 1 (by decide) (by decide)]
  norm_num

theorem exp_sample_zero : calculate_experience_match 0 0 = 100 := by
  norm_num [calculate_experience_match]

theorem mk_sample_sim : (mkMatch sampleResume pyJob (1 / 2)).similarity_score = 50 := by
  show pyRound2 ((1 : ℚ) / 2 * 100) = 50
  rw [show ((1 : ℚ) / 2 * 100) = ((50 : ℤ) : ℚ) by norm_num, pyRound2_intCast]
  norm_num

theorem mk_sample_skill : (mkMatch sampleResume pyJob (1 / 2)).skill_match = 100 :=
  skill_sample_self

theorem mk_sample_exp : (mkMatch sampleResume pyJob (1 / 2)).experience_match = 100 :=
  exp_sample_zero

theorem mk_sample_overall : (mkMatch sampleResume pyJob (1 / 2)).overall_score = 4030 := by
  show pyRound2 ((1 : ℚ) / 2 * 100 * (6 / 10) +
    calculate_skill_match ["python"] ["python"] * 30 +
    calculate_experience_match 0 0 * 10) = 4030
  rw [skill_sample_self, exp_sample_zero]
  rw [show ((1 : ℚ) / 2 * 100 * (6 / 10) + 100 * 30 + 100 * 10) = ((4030 : ℤ) : ℚ) by
    norm_num, pyRound2_intCast]
  norm_num

theorem rank_sample_eval :
    rankMatches sampleResume [pyJob] [1 / 2] 1 = [mkMatch sampleResume pyJob (1 / 2)] := by
  unfold rankMatches argsortTop
  norm_num [List.range_succ, List.filterMap_cons]

/-- Counterexample for claim C1: on a match produced by the ranker with
similarity 0.5, full skill match and full experience match, the code's
overall score is `round(50 * 0.6 + 100 * 30 + 100 * 10, 2) = 4030`,
whereas the claimed blend `similarity_score * 0.6 + skill_match * 0.30 +
experience_match * 0.10` gives 70. -/
theorem overall_score_weights_cex :
    ((rankMatches sampleResume [pyJob] [1 / 2] 1).map fun m => m.overall_score) = [4030] ∧
    ((rankMatches sampleResume [pyJob] [1 / 2] 1).map fun m =>
      pyRound2 (m.similarity_score * (6 / 10) + m.skill_match * (3 / 10) +
        m.experience_match * (1 / 10))) = [70] ∧
    (4030 : ℚ) ≠ 70 := by
  refine ⟨?_, ?_, by norm_num⟩
  · rw [rank_sample_eval]
    simp only [List.map_cons, List.map_nil, mk_sample_overall]
  · rw [rank_sample_eval]
    simp only [List.map_cons, List.map_nil, mk_sample_sim, mk_sample_skill, mk_sample_exp]
    rw [show ((50 : ℚ) * (6 / 10) + 100 * (3 / 10) + 100 * (1 / 10)) = ((70 : ℤ) : ℚ) by
      norm_num, pyRound2_intCast]
    norm_num

/-- Claim C1 amended: every match result produced by the ranker carries,
for some similarity entry `s` with `s > 0`, the rounded similarity
percentage `round(s * 100, 2)` and the overall score
`round(s * 100 * 0.6 + skill_match * 30 + experience_match * 10, 2)` —
the skill and experience sub-scores (each on a 0-100 scale) enter with
weights 30 and 10, not 0.30 and 0.10. -/
theorem overall_score_formula (resume : ResumeData) (jobs : List Job)
    (sims : List ℚ) (top_n : Nat) (m : MatchResult)
    (hm : m ∈ rankMatches resume jobs sims top_n) :
    ∃ i, i < sims.length ∧ 0 < sims.getD i 0 ∧
      m.similarity_score = pyRound2 (sims.getD i 0 * 100) ∧
      m.overall_score = pyRound2 (sims.getD i 0 * 100 * (6 / 10) +
        m.skill_match * 30 + m.experience_match * 10) := by
  unfold rankMatches at hm
  rw [List.mem_insertionSort] at hm
  rw [List.mem_filterMap] at hm
  obtain ⟨i, hi, hif⟩ := hm
  by_cases hpos : 0 < sims.getD i 0
  · rw [if_pos hpos] at hif
    have hm_eq := Option.some.inj hif
    have hi_lt : i < sims.length := by
      unfold argsortTop at hi
      have hi2 := List.mem_of_mem_take hi
      rw [List.mem_insertionSort] at hi2
      exact List.mem_range.mp hi2
    refine ⟨i, hi_lt, hpos, ?_, ?_⟩
    · rw [← hm_eq]
      rfl
    · rw [← hm_eq]
      rfl
  · rw [if_neg hpos] at hif
    exact absurd hif (by simp)

/-- Witness for the amended C1 at the sample single-job ranking. -/
theorem overall_score_formula_witness :
    ∃ i, i < [(1 : ℚ) / 2].length ∧ 0 < [(1 : ℚ) / 2].getD i 0 ∧
      (mkMatch sampleResume pyJob (1 / 2)).similarity_score =
        pyRound2 ([(1 : ℚ) / 2].getD i 0 * 100) ∧
      (mkMatch sampleResume pyJob (1 / 2)).overall_score =
        pyRound2 ([(1 : ℚ) / 2].getD i 0 * 100 * (6 / 10) +
          (mkMatch sampleResume pyJob (1 / 2)).skill_match * 30 +
          (mkMatch sampleResume pyJob (1 / 2)).experience_match * 10) :=
  overall_score_formula sampleResume [pyJob] [1 / 2] 1
    (mkMatch sampleResume pyJob (1 / 2))
    (by rw [rank_sample_eval]; exact List.mem_singleton.mpr rfl)

/-! ### Concrete inputs for the selection-order claim -/

/-- A resume whose only skill matches only the third job below. -/
def cexResume : ResumeData := ⟨"x", ["zz"], 0⟩

def cexJob1 : Job := ⟨1, "A", "CA", "d1", ["cobol"], 0⟩

def cexJob2 : Job := ⟨2, "B", "CB", "d2", ["fortran"], 0⟩

def cexJob3 : Job := ⟨3, "C", "CC", "d3", ["zz"], 0⟩

def cexJobs : List Job := [cexJob1, cexJob2, cexJob3]

def cexSims : List ℚ := [9 / 10, 7 / 10, 1 / 10]

theorem skill_cex_miss1 : calculate_skill_match ["zz"] ["cobol"] = 0 := by
  rw [skill_match_eval ["zz"] ["cobol"] 0 (by decide) (by decide)]
  norm_num

theorem skill_cex_miss2 : calculate_skill_match ["zz"] ["fortran"] = 0 := by
  rw [skill_match_eval ["zz"] ["fortran"] 0 (by decide) (by decide)]
  norm_num

theorem skill_cex_hit : calculate_skill_match ["zz"] ["zz"] = 100 := by
  rw [skill_match_eval ["zz"] ["zz"] 1 (by decide) (by decide)]
  norm_num

theorem mk_cex1_overall : (mkMatch cexResume cexJob1 (9 / 10)).overall_score = 1054 := by
  show pyRound2 ((9 : ℚ) / 10 * 100 * (6 / 10) +
    calculate_skill_match ["zz"] ["cobol"] * 30 +
    calculate_experience_match 0 0 * 10) = 1054
  rw [skill_cex_miss1, exp_sample_zero]
  rw [show ((9 : ℚ) / 10 * 100 * (6 / 10) + 0 * 30 + 100 * 10) = ((1054 : ℤ) : ℚ) by
    norm_num, pyRound2_intCast]
  norm_num

theorem mk_cex2_overall : (mkMatch cexResume cexJob2 (7 / 10)).overall_score = 1042 := by
  show pyRound2 ((7 : ℚ) / 10 * 100 * (6 / 10) +
    calculate_skill_match ["zz"] ["fortran"] * 30 +
    calculate_experience_match 0 0 * 10) = 1042
  rw [skill_cex_miss2, exp_sample_zero]
  rw [show ((7 : ℚ) / 10 * 100 * (6 / 10) + 0 * 30 + 100 * 10) = ((1042 : ℤ) : ℚ) by
    norm_num, pyRound2_intCast]
  norm_num

theorem mk_cex3_overall : (mkMatch cexResume cexJob3 (1 / 10)).overall_score = 4006 := by
  show pyRound2 ((1 : ℚ) / 10 * 100 * (6 / 10) +
    calculate_skill_match ["zz"] ["zz"] * 30 +
    calculate_experience_match 0 0 * 10) = 4006
  rw [skill_cex_hit, exp_sample_zero]
  rw [show ((1 : ℚ) / 10 * 100 * (6 / 10) + 100 * 30 + 100 * 10) = ((4006 : ℤ) : ℚ) by
    norm_num, pyRound2_intCast]
  norm_num

theorem cex_ge12 : overallGe (mkMatch cexResume cexJob1 (9 / 10))
    (mkMatch cexResume cexJob2 (7 / 10)) := by
  unfold overallGe
  rw [mk_cex1_overall, mk_cex2_overall]
  norm_num

theorem cex_nge23 : ¬ overallGe (mkMatch cexResume cexJob2 (7 / 10))
    (mkMatch cexResume cexJob3 (1 / 10)) := by
  unfold overallGe
  rw [mk_cex2_overall, mk_cex3_overall]
  norm_num

theorem cex_nge13 : ¬ overallGe (mkMatch cexResume cexJob1 (9 / 10))
    (mkMatch cexResume cexJob3 (1 / 10)) := by
  unfold overallGe
  rw [mk_cex1_overall, mk_cex3_overall]
  norm_num

theorem argsort_cex : argsortTop cexSims 2 = [0, 1] := by
  unfold argsortTop cexSims
  norm_num [List.range_succ]

theorem rank_cex_eval :
    rankMatches cexResume cexJobs cexSims 2 =
      [mkMatch cexResume cexJob1 (9 / 10), mkMatch cexResume cexJob2 (7 / 10)] := by
  have hc0 : (0 : ℚ) < cexSims.getD 0 0 := by norm_num [cexSims]
  have hc1 : (0 : ℚ) < cexSims.getD 1 0 := by norm_num [cexSims]
  unfold rankMatches
  rw [argsort_cex]
  simp only [List.filterMap_cons, List.filterMap_nil, if_pos hc0, if_pos hc1]
  norm_num [cexSims, cexJobs, cex_ge12]

theorem claimed_cex_eval :
    claimedRank cexResume cexJobs cexSims 2 =
      [mkMatch cexResume cexJob3 (1 / 10), mkMatch cexResume cexJob1 (9 / 10)] := by
  have hc0 : (0 : ℚ) < cexSims.getD 0 0 := by norm_num [cexSims]
  have hc1 : (0 : ℚ) < cexSims.getD 1 0 := by norm_num [cexSims]
  have hc2 : (0 : ℚ) < cexSims.getD 2 0 := by norm_num [cexSims]
  unfold claimedRank
  rw [show cexJobs.length = 3 from rfl, show List.range 3 = [0, 1, 2] from rfl]
  simp only [List.filterMap_cons, List.filterMap_nil, if_pos hc0, if_pos hc1, if_pos hc2]
  norm_num [cexSims, cexJobs, cex_ge12, cex_nge23, cex_nge13]

/-- Counterexample for claim C2: with three jobs of similarities
0.9, 0.7, 0.1 and top_n = 2, the ranker keeps the two jobs with the
highest similarity (ids 1, 2) even though the claimed pipeline — drop
zero-similarity jobs, sort all by overall score, take the first top_n —
would return ids 3, 1 (job 3 has overall score 4006 against 1054 and
1042). -/
theorem rank_selection_cex :
    ((rankMatches cexResume cexJobs cexSims 2).map fun m => m.job_id) = [1, 2] ∧
    ((claimedRank cexResume cexJobs cexSims 2).map fun m => m.job_id) = [3, 1] ∧
    ([1, 2] : List Nat) ≠ [3, 1] := by
  refine ⟨?_, ?_, by decide⟩
  · rw [rank_cex_eval]
    rfl
  · rw [claimed_cex_eval]
    rfl

/-- Claim C2 amended: the ranked result is sorted by overall score
descending and has at most `top_n` entries; however the candidate pool is
the `top_n` jobs by similarity (with the zero-similarity ones then
discarded), so the result need not contain the `top_n` highest
overall-score jobs. -/
theorem rank_sorted_length (resume : ResumeData) (jobs : List Job)
    (sims : List ℚ) (top_n : Nat) :
    (rankMatches resume jobs sims top_n).Sorted overallGe ∧
    (rankMatches resume jobs sims top_n).length ≤ top_n := by
  constructor
  · unfold rankMatches
    haveI : IsTotal MatchResult overallGe := ⟨fun a b => le_total _ _⟩
    haveI : IsTrans MatchResult overallGe :=
      ⟨fun _ _ _ h1 h2 => le_trans h2 h1⟩
    exact List.sorted_insertionSort overallGe _
  · unfold rankMatches
    rw [List.length_insertionSort]
    refine le_trans (List.length_filterMap_le _ _) ?_
    unfold argsortTop
    exact le_trans (List.length_take_le _ _) le_rfl

end ResumeMatch
